import Mathlib

/-!
Verification of the ACES RGB transfer-function family from
`color/colorspaces/aces_rgb.py` (the `colour` repository).

The Python module works on Python floats; the claims about exact values and
round trips are stated over an exact real-arithmetic embedding, so every
numeric quantity below is a real number.  `math.log10 v` is embedded as
`Real.logb 10 v`, `math.pow 2 e` as the real power `(2:ℝ) ^ e` (`Real.rpow`),
and `math.floor` as `Int.floor`.

Python's `dict.get` returns `None` on a missing key, and the subsequent
attribute access (`constants.CV_min`, ...) on `None` raises `AttributeError`;
the proxy functions are therefore embedded as `Except`-valued functions, with
`PyError` distinguishing the attribute error that actually occurs from the
"UnknownConfiguration" error the specification names.
-/

/-- Embeds the `color.utilities.data_structures.Structure` instance
`ACES_RGB_LOG_CONSTANTS` (a named bundle of four floats). -/
structure LogConstants where
  log_unity : ℝ
  log_xperstop : ℝ
  denorm_trans : ℝ
  denorm_fake0 : ℝ

/-- Embeds the `color.utilities.data_structures.Structure` instances
`ACES_RGB_PROXY_10_CONSTANTS` / `ACES_RGB_PROXY_12_CONSTANTS`
(named bundles of five floats). -/
structure ProxyConstants where
  CV_min : ℝ
  CV_max : ℝ
  steps_per_stop : ℝ
  mid_CV_offset : ℝ
  mid_log_offset : ℝ

/-- Source lines 88-91: `ACES_RGB_LOG_CONSTANTS = Structure(log_unity=32768,
log_xperstop=2048, denorm_trans=math.pow(2., -15), denorm_fake0=math.pow(2., -16))`. -/
noncomputable def ACES_RGB_LOG_CONSTANTS : LogConstants :=
  ⟨32768, 2048, (2:ℝ) ^ (-15 : ℤ), (2:ℝ) ^ (-16 : ℤ)⟩

/-- Source lines 111-114 of `__aces_rgb_log_transfer_function`: the denormal
remap followed by the log mapping, shared by the quantized and unquantized
return paths (the Python code computes it by sequential reassignment of
`value`). -/
noncomputable def aces_rgb_log_result (value : ℝ) : ℝ :=
  Real.logb 10
      (if value < ACES_RGB_LOG_CONSTANTS.denorm_trans
        then ACES_RGB_LOG_CONSTANTS.denorm_fake0 + value / 2
        else value) /
      Real.logb 10 2 *
      ACES_RGB_LOG_CONSTANTS.log_xperstop +
    ACES_RGB_LOG_CONSTANTS.log_unity

/-- Embeds `__aces_rgb_log_transfer_function(value, is_16_bit_integer=False)`
(source lines 94-119). -/
noncomputable def aces_rgb_log_transfer_function (value : ℝ)
    (is_16_bit_integer : Bool) : ℝ :=
  if value < 0 then 0
  else if is_16_bit_integer then
    min ((⌊aces_rgb_log_result value⌋ : ℝ) + 0.5) 65535
  else aces_rgb_log_result value

/-- Embeds `__aces_rgb_log_inverse_transfer_function(value)`
(source lines 122-138); the Python code reassigns `value` once, embedded here
by applying the denormal undo to the power expression. -/
noncomputable def aces_rgb_log_inverse_transfer_function (value : ℝ) : ℝ :=
  if (2:ℝ) ^ ((value - ACES_RGB_LOG_CONSTANTS.log_unity) /
        ACES_RGB_LOG_CONSTANTS.log_xperstop) <
      ACES_RGB_LOG_CONSTANTS.denorm_trans then
    ((2:ℝ) ^ ((value - ACES_RGB_LOG_CONSTANTS.log_unity) /
          ACES_RGB_LOG_CONSTANTS.log_xperstop) -
        ACES_RGB_LOG_CONSTANTS.denorm_fake0) * 2
  else
    (2:ℝ) ^ ((value - ACES_RGB_LOG_CONSTANTS.log_unity) /
      ACES_RGB_LOG_CONSTANTS.log_xperstop)

/-- Source lines 153-157. -/
noncomputable def ACES_RGB_PROXY_10_CONSTANTS : ProxyConstants :=
  ⟨0, 1023, 50, 425, -2.5⟩

/-- Source lines 159-163. -/
noncomputable def ACES_RGB_PROXY_12_CONSTANTS : ProxyConstants :=
  ⟨0, 4095, 200, 1700, -2.5⟩

/-- Source lines 165-166: the lookup dictionary
`{"10 bit": ..., "12 bit": ...}`, embedded as its `.get` method
(`none` for any other key, as `dict.get` returns `None`). -/
noncomputable def ACES_RGB_PROXY_CONSTANTS (bit_depth : String) :
    Option ProxyConstants :=
  if bit_depth = "10 bit" then some ACES_RGB_PROXY_10_CONSTANTS
  else if bit_depth = "12 bit" then some ACES_RGB_PROXY_12_CONSTANTS
  else none

/-- The two ways a Python call into the proxy functions can raise:
an `AttributeError` (attribute access on the `None` returned by `dict.get`
for a missing key) or the "UnknownConfiguration" error the specification
names.  Only the former occurs in the embedded code. -/
inductive PyError where
  | attributeError : PyError
  | unknownConfiguration : PyError
  deriving DecidableEq

/-- Embeds `__aces_rgb_proxy_transfer_function(value, bit_depth)`
(source lines 169-189).  When the key is missing, both branches dereference
`constants` (`constants.CV_min` etc.) on `None`, raising `AttributeError`. -/
noncomputable def aces_rgb_proxy_transfer_function (value : ℝ)
    (bit_depth : String) : Except PyError ℝ :=
  match ACES_RGB_PROXY_CONSTANTS bit_depth with
  | none => Except.error PyError.attributeError
  | some constants =>
    if value > 0 then
      Except.ok
        (max constants.CV_min
            (min constants.CV_max
              ((Real.logb 10 value / Real.logb 10 2 -
                    constants.mid_log_offset) *
                  constants.steps_per_stop +
                constants.mid_CV_offset)) +
          0.5)
    else Except.ok constants.CV_min

/-- Embeds `__aces_rgb_proxy_inverse_transfer_function(value, bit_depth)`
(source lines 192-208). -/
noncomputable def aces_rgb_proxy_inverse_transfer_function (value : ℝ)
    (bit_depth : String) : Except PyError ℝ :=
  match ACES_RGB_PROXY_CONSTANTS bit_depth with
  | none => Except.error PyError.attributeError
  | some constants =>
    Except.ok ((2:ℝ) ^ (((value - constants.mid_CV_offset) /
        constants.steps_per_stop) + constants.mid_log_offset))

/-! Shared helper lemmas. -/

theorem log10_over_log10_two (v : ℝ) :
    Real.logb 10 v / Real.logb 10 2 = Real.logb 2 v := by
  have h10 : Real.log 10 ≠ 0 := by
    have h : (1:ℝ) < 10 := by norm_num
    exact (Real.log_pos h).ne'
  have h2 : Real.log 2 ≠ 0 := (Real.log_pos one_lt_two).ne'
  unfold Real.logb
  field_simp

theorem two_rpow_logb (x : ℝ) (hx : 0 < x) : (2:ℝ) ^ Real.logb 2 x = x :=
  Real.rpow_logb (by norm_num) (by norm_num) hx

theorem proxy_constants_cases (d : String) (c : ProxyConstants)
    (h : ACES_RGB_PROXY_CONSTANTS d = some c) :
    c = ACES_RGB_PROXY_10_CONSTANTS ∨ c = ACES_RGB_PROXY_12_CONSTANTS := by
  unfold ACES_RGB_PROXY_CONSTANTS at h
  by_cases h10 : d = "10 bit"
  · rw [if_pos h10] at h
    exact Or.inl (Option.some_injective _ h).symm
  · rw [if_neg h10] at h
    by_cases h12 : d = "12 bit"
    · rw [if_pos h12] at h
      exact Or.inr (Option.some_injective _ h).symm
    · rw [if_neg h12] at h
      exact absurd h (by simp)

/-- Evaluation at the registered 10-bit key. -/
theorem proxy_constants_ten :
    ACES_RGB_PROXY_CONSTANTS "10 bit" = some ACES_RGB_PROXY_10_CONSTANTS := by
  unfold ACES_RGB_PROXY_CONSTANTS
  rw [if_pos rfl]

/-- Evaluation at the registered 12-bit key. -/
theorem proxy_constants_twelve :
    ACES_RGB_PROXY_CONSTANTS "12 bit" = some ACES_RGB_PROXY_12_CONSTANTS := by
  unfold ACES_RGB_PROXY_CONSTANTS
  rw [if_neg (by decide), if_pos rfl]

/-- Evaluation at the unregistered "8 bit" key: `dict.get` yields `None`. -/
theorem proxy_constants_eight :
    ACES_RGB_PROXY_CONSTANTS "8 bit" = none := by
  unfold ACES_RGB_PROXY_CONSTANTS
  rw [if_neg (by decide), if_neg (by decide)]

/-- Evaluation of the proxy forward function at a registered key. -/
theorem proxy_transfer_eval (v : ℝ) (d : String) (c : ProxyConstants)
    (hd : ACES_RGB_PROXY_CONSTANTS d = some c) :
    aces_rgb_proxy_transfer_function v d =
      if v > 0 then
        Except.ok
          (max c.CV_min
              (min c.CV_max
                ((Real.logb 10 v / Real.logb 10 2 - c.mid_log_offset) *
                    c.steps_per_stop +
                  c.mid_CV_offset)) +
            0.5)
      else Except.ok c.CV_min := by
  unfold aces_rgb_proxy_transfer_function
  rw [hd]

/-- Evaluation of the proxy inverse function at a registered key. -/
theorem proxy_inverse_eval (v : ℝ) (d : String) (c : ProxyConstants)
    (hd : ACES_RGB_PROXY_CONSTANTS d = some c) :
    aces_rgb_proxy_inverse_transfer_function v d =
      Except.ok ((2:ℝ) ^ (((v - c.mid_CV_offset) / c.steps_per_stop) +
        c.mid_log_offset)) := by
  unfold aces_rgb_proxy_inverse_transfer_function
  rw [hd]

/-- Evaluation of the proxy functions at an unregistered key: the `None`
returned by the dictionary lookup is dereferenced, raising `AttributeError`. -/
theorem proxy_transfer_eval_none (v : ℝ) (d : String)
    (hd : ACES_RGB_PROXY_CONSTANTS d = none) :
    aces_rgb_proxy_transfer_function v d =
        Except.error PyError.attributeError ∧
      aces_rgb_proxy_inverse_transfer_function v d =
        Except.error PyError.attributeError := by
  constructor
  · unfold aces_rgb_proxy_transfer_function
    rw [hd]
  · unfold aces_rgb_proxy_inverse_transfer_function
    rw [hd]

/-- The concrete scenario `proxy_encode(1.0, "10 bit") = 550.5` (shared by
several claims below). -/
theorem proxy_encode_one_ten :
    aces_rgb_proxy_transfer_function 1 "10 bit" = Except.ok 550.5 := by
  rw [proxy_transfer_eval 1 "10 bit" ACES_RGB_PROXY_10_CONSTANTS
    proxy_constants_ten]
  rw [if_pos (by norm_num : (1:ℝ) > 0)]
  have h : max ACES_RGB_PROXY_10_CONSTANTS.CV_min
      (min ACES_RGB_PROXY_10_CONSTANTS.CV_max
        ((Real.logb 10 1 / Real.logb 10 2 -
            ACES_RGB_PROXY_10_CONSTANTS.mid_log_offset) *
            ACES_RGB_PROXY_10_CONSTANTS.steps_per_stop +
          ACES_RGB_PROXY_10_CONSTANTS.mid_CV_offset)) + 0.5 = 550.5 := by
    show max (0:ℝ) (min 1023 ((Real.logb 10 1 / Real.logb 10 2 - (-2.5)) *
      50 + 425)) + 0.5 = 550.5
    rw [Real.logb_one, zero_div]
    norm_num
  rw [h]

/-- C1 counterexample: at input value `1.0` and bit-depth selector `"8 bit"`,
neither proxy function fails with the "UnknownConfiguration" error the claim
names; both fail with the attribute error raised by dereferencing the `None`
that `dict.get` returns for the unregistered key. -/
theorem C1_unknown_configuration_counterexample :
    aces_rgb_proxy_transfer_function 1 "8 bit" ≠
        Except.error PyError.unknownConfiguration ∧
      aces_rgb_proxy_inverse_transfer_function 1 "8 bit" ≠
        Except.error PyError.unknownConfiguration ∧
      aces_rgb_proxy_transfer_function 1 "8 bit" =
        Except.error PyError.attributeError ∧
      aces_rgb_proxy_inverse_transfer_function 1 "8 bit" =
        Except.error PyError.attributeError := by
  obtain ⟨hf, hi⟩ := proxy_transfer_eval_none 1 "8 bit" proxy_constants_eight
  refine ⟨?_, ?_, hf, hi⟩
  · rw [hf]
    intro h
    exact PyError.noConfusion (Except.error.inj h)
  · rw [hi]
    intro h
    exact PyError.noConfusion (Except.error.inj h)

/-- C1 (amended): for every input value and every bit-depth selector other
than `"10 bit"` or `"12 bit"`, the proxy forward and inverse transfer
functions fail — with the attribute error from dereferencing the `None`
lookup result — rather than returning a value or silently defaulting. -/
theorem C1_unknown_depth_fails (v : ℝ) (d : String)
    (h10 : d ≠ "10 bit") (h12 : d ≠ "12 bit") :
    aces_rgb_proxy_transfer_function v d =
        Except.error PyError.attributeError ∧
      aces_rgb_proxy_inverse_transfer_function v d =
        Except.error PyError.attributeError := by
  apply proxy_transfer_eval_none
  unfold ACES_RGB_PROXY_CONSTANTS
  rw [if_neg h10, if_neg h12]

/-- Witness for C1 (amended) at value `1.0` and selector `"8 bit"`. -/
theorem C1_unknown_depth_fails_witness :
    ("8 bit" ≠ "10 bit") ∧ ("8 bit" ≠ "12 bit") ∧
      (aces_rgb_proxy_transfer_function 1 "8 bit" =
          Except.error PyError.attributeError ∧
        aces_rgb_proxy_inverse_transfer_function 1 "8 bit" =
          Except.error PyError.attributeError) :=
  ⟨by decide, by decide,
    C1_unknown_depth_fails 1 "8 bit" (by decide) (by decide)⟩

/-- C4: for every value `<= 0` and each registered bit depth, the proxy
forward transfer function returns exactly `CV_min`, which is `0.0` for both
`"10 bit"` and `"12 bit"`, with no `+0.5` bin-center offset applied. -/
theorem C4_proxy_nonpositive_floor (v : ℝ) (hv : v ≤ 0) :
    aces_rgb_proxy_transfer_function v "10 bit" =
        Except.ok ACES_RGB_PROXY_10_CONSTANTS.CV_min ∧
      aces_rgb_proxy_transfer_function v "12 bit" =
        Except.ok ACES_RGB_PROXY_12_CONSTANTS.CV_min ∧
      ACES_RGB_PROXY_10_CONSTANTS.CV_min = 0 ∧
      ACES_RGB_PROXY_12_CONSTANTS.CV_min = 0 := by
  refine ⟨?_, ?_, rfl, rfl⟩
  · rw [proxy_transfer_eval v "10 bit" ACES_RGB_PROXY_10_CONSTANTS
      proxy_constants_ten]
    rw [if_neg (not_lt.mpr hv)]
  · rw [proxy_transfer_eval v "12 bit" ACES_RGB_PROXY_12_CONSTANTS
      proxy_constants_twelve]
    rw [if_neg (not_lt.mpr hv)]

/-- Witness for C4 at value `0`. -/
theorem C4_proxy_nonpositive_floor_witness :
    (0:ℝ) ≤ 0 ∧
      (aces_rgb_proxy_transfer_function 0 "10 bit" =
          Except.ok ACES_RGB_PROXY_10_CONSTANTS.CV_min ∧
        aces_rgb_proxy_transfer_function 0 "12 bit" =
          Except.ok ACES_RGB_PROXY_12_CONSTANTS.CV_min ∧
        ACES_RGB_PROXY_10_CONSTANTS.CV_min = 0 ∧
        ACES_RGB_PROXY_12_CONSTANTS.CV_min = 0) :=
  ⟨le_refl 0, C4_proxy_nonpositive_floor 0 (le_refl 0)⟩

/-- C5: for every value `< 0` and either setting of the 16-bit-integer flag,
the log forward transfer function returns exactly `0`. -/
theorem C5_log_negative_clamp (x : ℝ) (h : x < 0) (b : Bool) :
    aces_rgb_log_transfer_function x b = 0 := by
  unfold aces_rgb_log_transfer_function
  rw [if_pos h]

/-- Witness for C5 at value `-1`, both flag settings. -/
theorem C5_log_negative_clamp_witness :
    (-1:ℝ) < 0 ∧ aces_rgb_log_transfer_function (-1) false = 0 ∧
      aces_rgb_log_transfer_function (-1) true = 0 :=
  ⟨by norm_num, C5_log_negative_clamp (-1) (by norm_num) false,
    C5_log_negative_clamp (-1) (by norm_num) true⟩

/-- C7: for every real code value and each registered bit depth, the proxy
inverse transfer function returns
`2 ^ (((value - mid_CV_offset) / steps_per_stop) + mid_log_offset)` with no
clamping: a total pure algebraic map, so out-of-range code values extrapolate
to out-of-range linear values. -/
theorem C7_proxy_inverse_pure (v : ℝ) (d : String) (c : ProxyConstants)
    (hd : ACES_RGB_PROXY_CONSTANTS d = some c) :
    aces_rgb_proxy_inverse_transfer_function v d =
      Except.ok ((2:ℝ) ^ (((v - c.mid_CV_offset) / c.steps_per_stop) +
        c.mid_log_offset)) :=
  proxy_inverse_eval v d c hd

/-- Witness for C7 at the out-of-range code value `2000` (above the 10-bit
`CV_max` of `1023`), showing the unclamped extrapolation. -/
theorem C7_proxy_inverse_pure_witness :
    ACES_RGB_PROXY_CONSTANTS "10 bit" = some ACES_RGB_PROXY_10_CONSTANTS ∧
      aces_rgb_proxy_inverse_transfer_function 2000 "10 bit" =
        Except.ok ((2:ℝ) ^ (((2000 -
            ACES_RGB_PROXY_10_CONSTANTS.mid_CV_offset) /
          ACES_RGB_PROXY_10_CONSTANTS.steps_per_stop) +
          ACES_RGB_PROXY_10_CONSTANTS.mid_log_offset)) :=
  ⟨proxy_constants_ten,
    C7_proxy_inverse_pure 2000 "10 bit" ACES_RGB_PROXY_10_CONSTANTS
      proxy_constants_ten⟩

/-- C3: for every value `> 0` and each registered bit depth, the proxy
forward transfer function returns
`max(CV_min, min(CV_max, (log2 value - mid_log_offset) * steps_per_stop +
mid_CV_offset)) + 0.5`; that output never exceeds `CV_max + 0.5`; and at
value `1.0` with `"10 bit"` it returns exactly `550.5`. -/
theorem C3_proxy_positive_formula (v : ℝ) (hv : v > 0) (d : String)
    (c : ProxyConstants) (hd : ACES_RGB_PROXY_CONSTANTS d = some c) :
    aces_rgb_proxy_transfer_function v d =
        Except.ok
          (max c.CV_min
              (min c.CV_max
                ((Real.logb 2 v - c.mid_log_offset) * c.steps_per_stop +
                  c.mid_CV_offset)) +
            0.5) ∧
      max c.CV_min
          (min c.CV_max
            ((Real.logb 2 v - c.mid_log_offset) * c.steps_per_stop +
              c.mid_CV_offset)) +
          0.5 ≤
        c.CV_max + 0.5 ∧
      aces_rgb_proxy_transfer_function 1 "10 bit" = Except.ok 550.5 := by
  have hminmax : c.CV_min ≤ c.CV_max := by
    rcases proxy_constants_cases d c hd with h | h <;> rw [h]
    · show (0:ℝ) ≤ 1023
      norm_num
    · show (0:ℝ) ≤ 4095
      norm_num
  refine ⟨?_, ?_, proxy_encode_one_ten⟩
  · rw [proxy_transfer_eval v d c hd, if_pos hv, log10_over_log10_two]
  · have h1 : max c.CV_min
        (min c.CV_max
          ((Real.logb 2 v - c.mid_log_offset) * c.steps_per_stop +
            c.mid_CV_offset)) ≤ c.CV_max :=
      max_le hminmax (min_le_left _ _)
    linarith

/-- Witness for C3 at value `1`, bit depth `"10 bit"`. -/
theorem C3_proxy_positive_formula_witness :
    (1:ℝ) > 0 ∧
      ACES_RGB_PROXY_CONSTANTS "10 bit" = some ACES_RGB_PROXY_10_CONSTANTS ∧
      (aces_rgb_proxy_transfer_function 1 "10 bit" =
          Except.ok
            (max ACES_RGB_PROXY_10_CONSTANTS.CV_min
                (min ACES_RGB_PROXY_10_CONSTANTS.CV_max
                  ((Real.logb 2 1 -
                      ACES_RGB_PROXY_10_CONSTANTS.mid_log_offset) *
                      ACES_RGB_PROXY_10_CONSTANTS.steps_per_stop +
                    ACES_RGB_PROXY_10_CONSTANTS.mid_CV_offset)) +
              0.5) ∧
        max ACES_RGB_PROXY_10_CONSTANTS.CV_min
            (min ACES_RGB_PROXY_10_CONSTANTS.CV_max
              ((Real.logb 2 1 -
                  ACES_RGB_PROXY_10_CONSTANTS.mid_log_offset) *
                  ACES_RGB_PROXY_10_CONSTANTS.steps_per_stop +
                ACES_RGB_PROXY_10_CONSTANTS.mid_CV_offset)) +
            0.5 ≤
          ACES_RGB_PROXY_10_CONSTANTS.CV_max + 0.5 ∧
        aces_rgb_proxy_transfer_function 1 "10 bit" = Except.ok 550.5) :=
  ⟨by norm_num, proxy_constants_ten,
    C3_proxy_positive_formula 1 (by norm_num) "10 bit"
      ACES_RGB_PROXY_10_CONSTANTS proxy_constants_ten⟩

/-- C6: for every non-negative input, with the 16-bit-integer flag set the
log forward transfer function returns
`min(floor(result) + 0.5, 65535)` where `result` is the unquantized log
encoding, and for every input whatsoever the flagged output is at most
`65535`. -/
theorem C6_log_integer_quantization (x : ℝ) (h : 0 ≤ x) :
    aces_rgb_log_transfer_function x true =
        min ((⌊aces_rgb_log_transfer_function x false⌋ : ℝ) + 0.5) 65535 ∧
      ∀ y : ℝ, aces_rgb_log_transfer_function y true ≤ 65535 := by
  constructor
  · unfold aces_rgb_log_transfer_function
    rw [if_neg (not_lt.mpr h), if_neg (not_lt.mpr h)]
    simp
  · intro y
    unfold aces_rgb_log_transfer_function
    by_cases hy : y < 0
    · rw [if_pos hy]
      norm_num
    · rw [if_neg hy, if_pos rfl]
      exact min_le_right _ _

/-- Witness for C6 at input `0`. -/
theorem C6_log_integer_quantization_witness :
    (0:ℝ) ≤ 0 ∧
      (aces_rgb_log_transfer_function 0 true =
          min ((⌊aces_rgb_log_transfer_function 0 false⌋ : ℝ) + 0.5) 65535 ∧
        ∀ y : ℝ, aces_rgb_log_transfer_function y true ≤ 65535) :=
  ⟨le_refl 0, C6_log_integer_quantization 0 (le_refl 0)⟩

/-- C9: the log forward transfer function at `1.0` with the flag unset
returns exactly `log_unity = 32768.0`, and the log inverse transfer function
at `32768.0` returns exactly `1.0`. -/
theorem C9_log_unity_scenario :
    aces_rgb_log_transfer_function 1 false = 32768 ∧
      aces_rgb_log_inverse_transfer_function 32768 = 1 := by
  have hnd : ¬ ((1:ℝ) < ACES_RGB_LOG_CONSTANTS.denorm_trans) := by
    show ¬ ((1:ℝ) < (2:ℝ) ^ (-15:ℤ))
    norm_num
  constructor
  · unfold aces_rgb_log_transfer_function aces_rgb_log_result
    rw [if_neg (by norm_num : ¬ ((1:ℝ) < 0)), if_neg hnd]
    show (if false = true then
        min ((⌊Real.logb 10 1 / Real.logb 10 2 *
          ACES_RGB_LOG_CONSTANTS.log_xperstop +
          ACES_RGB_LOG_CONSTANTS.log_unity⌋ : ℝ) + 0.5) 65535
      else Real.logb 10 1 / Real.logb 10 2 *
          ACES_RGB_LOG_CONSTANTS.log_xperstop +
        ACES_RGB_LOG_CONSTANTS.log_unity) = 32768
    rw [if_neg (by simp), Real.logb_one, zero_div, zero_mul, zero_add]
    rfl
  · unfold aces_rgb_log_inverse_transfer_function
    have harg : ((32768:ℝ) - ACES_RGB_LOG_CONSTANTS.log_unity) /
        ACES_RGB_LOG_CONSTANTS.log_xperstop = 0 := by
      show ((32768:ℝ) - 32768) / 2048 = 0
      norm_num
    rw [harg, Real.rpow_zero, if_neg hnd]

/-- C2: for every `x` in `[2^-10, 2^10]`, the log inverse transfer function
applied to the log forward transfer function (flag unset) returns exactly
`x` under the exact real-arithmetic embedding. -/
theorem C2_log_round_trip_interior (x : ℝ) (h1 : (2:ℝ) ^ (-10:ℤ) ≤ x)
    (h2 : x ≤ (2:ℝ) ^ (10:ℤ)) :
    aces_rgb_log_inverse_transfer_function
      (aces_rgb_log_transfer_function x false) = x := by
  have hx : 0 < x := lt_of_lt_of_le (by positivity) h1
  have hnd : ¬ (x < ACES_RGB_LOG_CONSTANTS.denorm_trans) := by
    show ¬ (x < (2:ℝ) ^ (-15:ℤ))
    push_neg
    calc (2:ℝ) ^ (-15:ℤ) ≤ (2:ℝ) ^ (-10:ℤ) := by norm_num
      _ ≤ x := h1
  have henc : aces_rgb_log_transfer_function x false =
      Real.logb 2 x * 2048 + 32768 := by
    unfold aces_rgb_log_transfer_function aces_rgb_log_result
    rw [if_neg (not_lt.mpr hx.le), if_neg hnd,
      if_neg (by simp : ¬ (false = true)), log10_over_log10_two]
    rfl
  rw [henc]
  unfold aces_rgb_log_inverse_transfer_function
  have harg : (Real.logb 2 x * 2048 + 32768 -
      ACES_RGB_LOG_CONSTANTS.log_unity) /
      ACES_RGB_LOG_CONSTANTS.log_xperstop = Real.logb 2 x := by
    show (Real.logb 2 x * 2048 + 32768 - 32768) / 2048 = Real.logb 2 x
    field_simp
  rw [harg, two_rpow_logb x hx, if_neg hnd]

/-- Witness for C2 at `x = 1`. -/
theorem C2_log_round_trip_interior_witness :
    (2:ℝ) ^ (-10:ℤ) ≤ 1 ∧ (1:ℝ) ≤ (2:ℝ) ^ (10:ℤ) ∧
      aces_rgb_log_inverse_transfer_function
        (aces_rgb_log_transfer_function 1 false) = 1 :=
  ⟨by norm_num, by norm_num,
    C2_log_round_trip_interior 1 (by norm_num) (by norm_num)⟩

/-- C10: for every `x` with `0 <= x < 2^-15`, the forward remap
`denorm_fake0 + x/2` lands in `[2^-16, 2^-15)`, so the inverse's
denormal-undo branch fires and the round trip (flag unset) is exact on the
denormal region too. -/
theorem C10_log_round_trip_denormal (x : ℝ) (h0 : 0 ≤ x)
    (h1 : x < (2:ℝ) ^ (-15:ℤ)) :
    ((2:ℝ) ^ (-16:ℤ) ≤ ACES_RGB_LOG_CONSTANTS.denorm_fake0 + x / 2 ∧
        ACES_RGB_LOG_CONSTANTS.denorm_fake0 + x / 2 < (2:ℝ) ^ (-15:ℤ)) ∧
      aces_rgb_log_inverse_transfer_function
        (aces_rgb_log_transfer_function x false) = x := by
  have hf : ACES_RGB_LOG_CONSTANTS.denorm_fake0 = (2:ℝ) ^ (-16:ℤ) := rfl
  have htrans : ACES_RGB_LOG_CONSTANTS.denorm_trans = (2:ℝ) ^ (-15:ℤ) := rfl
  have hv0 : (0:ℝ) < (2:ℝ) ^ (-16:ℤ) + x / 2 := by positivity
  have hv1 : (2:ℝ) ^ (-16:ℤ) ≤ (2:ℝ) ^ (-16:ℤ) + x / 2 := by linarith
  have hv2 : (2:ℝ) ^ (-16:ℤ) + x / 2 < (2:ℝ) ^ (-15:ℤ) := by
    have e16 : (2:ℝ) ^ (-16:ℤ) = 1 / 65536 := by norm_num
    have e15 : (2:ℝ) ^ (-15:ℤ) = 1 / 32768 := by norm_num
    rw [e15] at h1
    rw [e16, e15]
    linarith
  have hd : x < ACES_RGB_LOG_CONSTANTS.denorm_trans := by
    rw [htrans]
    exact h1
  have henc : aces_rgb_log_transfer_function x false =
      Real.logb 2 ((2:ℝ) ^ (-16:ℤ) + x / 2) * 2048 + 32768 := by
    unfold aces_rgb_log_transfer_function aces_rgb_log_result
    rw [if_neg (not_lt.mpr h0), if_pos hd,
      if_neg (by simp : ¬ (false = true)), hf, log10_over_log10_two]
    rfl
  refine ⟨⟨by rw [hf]; exact hv1, by rw [hf]; exact hv2⟩, ?_⟩
  rw [henc]
  unfold aces_rgb_log_inverse_transfer_function
  have harg : (Real.logb 2 ((2:ℝ) ^ (-16:ℤ) + x / 2) * 2048 + 32768 -
      ACES_RGB_LOG_CONSTANTS.log_unity) /
      ACES_RGB_LOG_CONSTANTS.log_xperstop =
      Real.logb 2 ((2:ℝ) ^ (-16:ℤ) + x / 2) := by
    show (Real.logb 2 ((2:ℝ) ^ (-16:ℤ) + x / 2) * 2048 + 32768 - 32768) /
      2048 = Real.logb 2 ((2:ℝ) ^ (-16:ℤ) + x / 2)
    field_simp
  rw [harg, two_rpow_logb _ hv0, if_pos (htrans ▸ hv2), hf]
  ring

/-- Witness for C10 at `x = 0`. -/
theorem C10_log_round_trip_denormal_witness :
    (0:ℝ) ≤ 0 ∧ (0:ℝ) < (2:ℝ) ^ (-15:ℤ) ∧
      (((2:ℝ) ^ (-16:ℤ) ≤ ACES_RGB_LOG_CONSTANTS.denorm_fake0 + 0 / 2 ∧
          ACES_RGB_LOG_CONSTANTS.denorm_fake0 + 0 / 2 < (2:ℝ) ^ (-15:ℤ)) ∧
        aces_rgb_log_inverse_transfer_function
          (aces_rgb_log_transfer_function 0 false) = 0) :=
  ⟨le_refl 0, by positivity,
    C10_log_round_trip_denormal 0 (le_refl 0) (by positivity)⟩

/-- C8: for every `x > 0` whose unclamped proxy encoding lies strictly
inside `(CV_min, CV_max)` at a registered bit depth, the proxy inverse
transfer function applied to the forward result minus `0.5` returns exactly
`x` under the exact real-arithmetic embedding. -/
theorem C8_proxy_round_trip_interior (x : ℝ) (hx : 0 < x) (d : String)
    (c : ProxyConstants) (hd : ACES_RGB_PROXY_CONSTANTS d = some c)
    (hlo : c.CV_min <
      (Real.logb 2 x - c.mid_log_offset) * c.steps_per_stop +
        c.mid_CV_offset)
    (hhi : (Real.logb 2 x - c.mid_log_offset) * c.steps_per_stop +
        c.mid_CV_offset < c.CV_max)
    (y : ℝ) (hy : aces_rgb_proxy_transfer_function x d = Except.ok y) :
    aces_rgb_proxy_inverse_transfer_function (y - 0.5) d = Except.ok x := by
  have hsps : c.steps_per_stop ≠ 0 := by
    rcases proxy_constants_cases d c hd with h | h <;> rw [h]
    · show (50:ℝ) ≠ 0
      norm_num
    · show (200:ℝ) ≠ 0
      norm_num
  have henc : aces_rgb_proxy_transfer_function x d =
      Except.ok ((Real.logb 2 x - c.mid_log_offset) * c.steps_per_stop +
        c.mid_CV_offset + 0.5) := by
    rw [proxy_transfer_eval x d c hd, if_pos hx, log10_over_log10_two,
      min_eq_right hhi.le, max_eq_right hlo.le]
  have hyr : y = (Real.logb 2 x - c.mid_log_offset) * c.steps_per_stop +
      c.mid_CV_offset + 0.5 :=
    Except.ok.inj (hy.symm.trans henc)
  rw [proxy_inverse_eval (y - 0.5) d c hd, hyr]
  have hexp : ((Real.logb 2 x - c.mid_log_offset) * c.steps_per_stop +
      c.mid_CV_offset + 0.5 - 0.5 - c.mid_CV_offset) / c.steps_per_stop +
      c.mid_log_offset = Real.logb 2 x := by
    field_simp
  rw [hexp, two_rpow_logb x hx]

/-- Witness for C8 at `x = 1`, bit depth `"10 bit"`, forward output `550.5`. -/
theorem C8_proxy_round_trip_interior_witness :
    (0:ℝ) < 1 ∧
      ACES_RGB_PROXY_CONSTANTS "10 bit" = some ACES_RGB_PROXY_10_CONSTANTS ∧
      ACES_RGB_PROXY_10_CONSTANTS.CV_min <
        (Real.logb 2 1 - ACES_RGB_PROXY_10_CONSTANTS.mid_log_offset) *
            ACES_RGB_PROXY_10_CONSTANTS.steps_per_stop +
          ACES_RGB_PROXY_10_CONSTANTS.mid_CV_offset ∧
      (Real.logb 2 1 - ACES_RGB_PROXY_10_CONSTANTS.mid_log_offset) *
          ACES_RGB_PROXY_10_CONSTANTS.steps_per_stop +
          ACES_RGB_PROXY_10_CONSTANTS.mid_CV_offset <
        ACES_RGB_PROXY_10_CONSTANTS.CV_max ∧
      aces_rgb_proxy_transfer_function 1 "10 bit" = Except.ok 550.5 ∧
      aces_rgb_proxy_inverse_transfer_function (550.5 - 0.5) "10 bit" =
        Except.ok 1 :=
  ⟨by norm_num, proxy_constants_ten,
    by norm_num [ACES_RGB_PROXY_10_CONSTANTS],
    by norm_num [ACES_RGB_PROXY_10_CONSTANTS],
    proxy_encode_one_ten,
    C8_proxy_round_trip_interior 1 (by norm_num) "10 bit"
      ACES_RGB_PROXY_10_CONSTANTS proxy_constants_ten
      (by norm_num [ACES_RGB_PROXY_10_CONSTANTS])
      (by norm_num [ACES_RGB_PROXY_10_CONSTANTS])
      550.5 proxy_encode_one_ten⟩
